import Mathlib

/-!
# Verification of the gammapy TS-map estimation engine

Shallow embedding of `gammapy/detect/test_statistics.py` (the `TSMapEstimator`
driver, its per-pixel evaluator `_ts_value`, the three amplitude solvers, the
error/upper-limit estimators, and the multi-scale orchestration helpers).

Conventions of the embedding:
* machine floats become `ℚ`; a possibly-NaN float value is `Option ℚ` with
  `none` playing the role of NaN;
* 2-D numpy arrays become `List (List ℚ)` (row major); window-level arrays that
  the code only ever sums or combines elementwise are flattened to `List ℚ`;
* Python functions that can raise return `Option`/`Except`, with `none`/`.error`
  standing for the raised exception;
* calls into external libraries (scipy's `brentq`, the FFT convolution) and into
  compiled Cython kernels whose sources are not part of the repository snapshot
  are either passed in as explicit oracle parameters or, where the spec pins the
  formula down, defined with a doc comment starting `Modelled from the spec:`.
-/

/-- Module constant `FLUX_FACTOR = 1e-12` from `test_statistics.py`. -/
def FLUX_FACTOR : ℚ := 1 / 1000000000000

/-- Module constant `MAX_NITER = 20` from `test_statistics.py`. -/
def MAX_NITER : ℕ := 20

/-- Module constant `RTOL = 1e-3` from `test_statistics.py`. -/
def RTOL : ℚ := 1 / 1000

/-- A 2-D numpy array of floats, row major. -/
abbrev Image := List (List ℚ)

/-- `arr[y][x]` with numpy-style in-bounds access (out-of-range reads, which the
code never performs on the inputs we instantiate, default to `0`). -/
def imAt (im : Image) (y x : ℕ) : ℚ :=
  ((im.get? y).bind (fun row => row.get? x)).getD 0

/-- `arr.shape` of a rectangular 2-D array. -/
def imShape (im : Image) : ℕ × ℕ :=
  (im.length, (im.head?.map List.length).getD 0)

/-- Flatten a 2-D array to the list of its entries, row major. -/
def imFlat (im : Image) : List ℚ := im.flatMap id

/-- Elementwise combination of two 2-D arrays (numpy broadcasting is never used
by the embedded code paths: shapes always agree). -/
def imZip (f : ℚ → ℚ → ℚ) (a b : Image) : Image :=
  List.zipWith (List.zipWith f) a b

/-- Elementwise map over a 2-D array. -/
def imMap (f : ℚ → ℚ) (a : Image) : Image := a.map (List.map f)

/-- Python list slice `l[lo:hi]` with step 1: negative indices count from the
end, and both endpoints are clamped to the list. -/
def pySlice {α : Type} (l : List α) (lo hi : ℤ) : List α :=
  let n : ℤ := l.length
  let lo' : ℤ := if lo < 0 then max 0 (n + lo) else min lo n
  let hi' : ℤ := if hi < 0 then max 0 (n + hi) else min hi n
  (l.drop lo'.toNat).take (hi'.toNat - lo'.toNat)

/-- Membership of index `i` in the Python slice `slice(lo, hi)` of an axis of
length `n` (the index set selected by `arr[lo:hi]`). -/
def pySliceMem (n : ℕ) (lo hi : ℤ) (i : ℕ) : Bool :=
  let lo' : ℤ := if lo < 0 then max 0 ((n : ℤ) + lo) else min lo (n : ℤ)
  let hi' : ℤ := if hi < 0 then max 0 ((n : ℤ) + hi) else min hi (n : ℤ)
  decide (lo' ≤ (i : ℤ)) && decide ((i : ℤ) < hi')

/-- `_extract_array(array, shape, position)`: the window
`array[pos0 - shape0 // 2 : pos0 + shape0 // 2 + 1, pos1 - shape1 // 2 : pos1 + shape1 // 2 + 1]`
(with Python slice semantics). -/
def extract_array (array : Image) (shape : ℕ × ℕ) (position : ℕ × ℕ) : Image :=
  let y_width : ℤ := shape.1 / 2
  let x_width : ℤ := shape.2 / 2
  let y_lo : ℤ := (position.1 : ℤ) - y_width
  let y_hi : ℤ := (position.1 : ℤ) + y_width + 1
  let x_lo : ℤ := (position.2 : ℤ) - x_width
  let x_hi : ℤ := (position.2 : ℤ) + x_width + 1
  (pySlice array y_lo y_hi).map (fun row => pySlice row x_lo x_hi)

/-- `np.sign` on a float. -/
def npSign (q : ℚ) : ℚ :=
  if q < 0 then -1 else if q = 0 then 0 else 1

/-- Modelled from the spec: `_cash_sum_cython(counts, model)` (compiled Cython,
not part of the repository snapshot) computes the summed Cash statistic
`2 * Σ (model - counts * log(model))` over matching-shape arrays.  The natural
logarithm on floats is passed in as the oracle `logf`; every theorem below only
ever exercises it where its coefficient `counts` is zero or its argument is `1`
(where `log` is exactly `0`), so the choice of `logf` never matters there. -/
def cash_sum (logf : ℚ → ℚ) (counts model : List ℚ) : ℚ :=
  2 * (List.zipWith (fun n mu => mu - n * logf mu) counts model).sum

/-- `f_cash(x, counts, background, model)` from the source: the Cash statistic
of the model `background + x * FLUX_FACTOR * model`. -/
def f_cash (logf : ℚ → ℚ) (x : ℚ) (counts background model : List ℚ) : ℚ :=
  cash_sum logf counts (List.zipWith (fun b m => b + x * FLUX_FACTOR * m) background model)

/-- Modelled from the spec: `_cash_cython(counts, background)` (compiled Cython,
not part of the repository snapshot) computes the per-pixel null statistic map,
i.e. the elementwise Cash statistic `2 * (background - counts * log(background))`
of the background-only model ("the statistic at zero amplitude"). -/
def cash_image (logf : ℚ → ℚ) (counts background : Image) : Image :=
  imZip (fun n b => 2 * (b - n * logf b)) counts background

/-- Modelled from the spec: the `amplitude_min_total` component of
`_amplitude_bounds_cython` (compiled Cython, not part of the repository
snapshot) is "the amplitude that keeps `background + amplitude*FLUX_FACTOR*model
≥ 0` everywhere in the window", i.e. the largest of the per-pixel lower bounds
`-background / (FLUX_FACTOR * model)` over pixels with positive model value.
The companion bracket endpoints `amplitude_min`/`amplitude_max` are consumed
only by the external `brentq` call, which the embedding keeps abstract, so they
are not modelled. -/
def amplitude_min_total (background model : List ℚ) : ℚ :=
  match (List.zip background model).filterMap
      (fun bm => if 0 < bm.2 then some (-bm.1 / (FLUX_FACTOR * bm.2)) else none) with
  | [] => 0
  | h :: t => t.foldl max h

/-- Outcome of the external `scipy.optimize.brentq` call made by
`_root_amplitude_brentq` (with `full_output=True`): either a root together with
the iteration count it reports, or a raised `RuntimeError`/`ValueError`
(non-convergence within `maxiter`, or an invalid bracket). -/
inductive BrentqOutcome where
  | success (root : ℚ) (iterations : ℕ)
  | failure
deriving DecidableEq

/-- `_root_amplitude_brentq(counts, background, model, rtol)`: computes the
amplitude bounds, short-circuits to `(amplitude_min_total, 0)` when
`counts.sum()` is not positive, and otherwise delegates to the external
`brentq` root search, flooring a successful root at `amplitude_min_total` and
converting a raised error into `(NaN, MAX_NITER)`.  The function itself never
raises: it is total for every outcome of the external call. -/
def root_amplitude_brentq (brentq : BrentqOutcome) (counts background model : List ℚ) :
    Option ℚ × ℕ :=
  let aMinTotal := amplitude_min_total background model
  if ¬ (0 < counts.sum) then (some aMinTotal, 0)
  else
    match brentq with
    | .success root iterations => (some (max root aMinTotal), iterations)
    | .failure => (none, MAX_NITER)

/-- Modelled from the spec: `_f_cash_root_cython(x, counts, background, model)`
(compiled Cython, not part of the repository snapshot) evaluates the derivative
of the Cash statistic with respect to the amplitude,
`2 * Σ FLUX_FACTOR * model * (1 - counts / (background + x*FLUX_FACTOR*model))`
("the statistic's derivative" whose zero the root solvers seek).  The only
theorems exercising it use windows with all counts zero, where every plausible
normalisation of the derivative is a positive constant in `x`. -/
def f_cash_root (counts background model : List ℚ) (x : ℚ) : ℚ :=
  2 * ((List.zip counts (List.zip background model)).map
    (fun t => FLUX_FACTOR * t.2.2 * (1 - t.1 / (t.2.1 + x * FLUX_FACTOR * t.2.2)))).sum

/-- The secant iteration of `scipy.optimize.newton` when no derivative is
supplied, as in the scipy releases contemporary with this code: when the two
secant ordinates coincide it emits a `RuntimeWarning` (suppressed by the caller
via `warnings.simplefilter`) and returns the midpoint of the current bracket;
when the update moves by less than `tol` it returns the update; exhausting
`maxiter` raises `RuntimeError`, modelled by `none`. -/
def secantLoop (f : ℚ → ℚ) (tol : ℚ) :
    ℕ → ℚ → ℚ → ℚ → ℚ → Option ℚ
  | 0, _, _, _, _ => none
  | fuel + 1, p0, p1, q0, q1 =>
    if q1 = q0 then some ((p1 + p0) / 2)
    else
      let p := p1 - q1 * (p1 - p0) / (q1 - q0)
      if |p - p1| < tol then some p
      else secantLoop f tol fuel p1 p q1 (f p)

/-- `scipy.optimize.newton(func, x0, tol=..., maxiter=...)` without `fprime`:
seeds the secant iteration with `x0` and `x0*(1 + 1e-4) ± 1e-4`. -/
def scipyNewton (f : ℚ → ℚ) (x0 tol : ℚ) (maxiter : ℕ) : Option ℚ :=
  let p1 := if 0 ≤ x0 then x0 * (1 + 1 / 10000) + 1 / 10000
            else x0 * (1 + 1 / 10000) - 1 / 10000
  secantLoop f tol maxiter x0 p1 (f x0) (f p1)

/-- `_root_amplitude(counts, background, model, flux, rtol)`: runs the external
`newton` root search on the Cash derivative seeded at `flux`; a raised
`RuntimeError` is converted into `(NaN, MAX_NITER)`, and a returned root is
passed through unfloored with a reported iteration count of `0`.  Note the
source computes no amplitude bounds and has no `counts.sum()` short-circuit. -/
def root_amplitude (counts background model : List ℚ) (flux rtol : ℚ) :
    Option ℚ × ℕ :=
  match scipyNewton (f_cash_root counts background model) flux rtol MAX_NITER with
  | some root => (some root, 0)
  | none => (none, MAX_NITER)

/-- The loop of `_leastsq_iter_amplitude`: each pass asks the external weighted
least-squares kernel `xBest` (the Cython `_x_best_leastsq`, not part of the
repository snapshot, kept abstract) for the best flux under the current
weights; it stops when the relative change drops below `rtol` (reporting `i+1`
iterations) and otherwise reweights with `x*model + background`.  On
exhaustion the source returns the last iterate (held here in `x_old`, which the
Python `else` branch keeps equal to the last computed `x`) with `MAX_NITER`.
In `ℚ` the division `(x - x_old)/x` at `x = 0` yields `0` rather than Python's
`ZeroDivisionError`; no theorem exercises that point. -/
def leastsqLoop (xBest : List ℚ → List ℚ → List ℚ → List ℚ → ℚ)
    (counts background model : List ℚ) (aMinTotal rtol : ℚ) :
    ℕ → ℚ → List ℚ → ℕ → (ℚ × ℕ)
  | 0, x_old, _, _ => (max (x_old / FLUX_FACTOR) aMinTotal, MAX_NITER)
  | fuel + 1, x_old, weights, i =>
    let x := xBest counts background model weights
    if |(x - x_old) / x| < rtol then (max (x / FLUX_FACTOR) aMinTotal, i + 1)
    else
      leastsqLoop xBest counts background model aMinTotal rtol fuel x
        (List.zipWith (fun m b => x * m + b) model background) (i + 1)

/-- `_leastsq_iter_amplitude(counts, background, model, maxiter, rtol)`:
computes the amplitude bounds, short-circuits to `(amplitude_min_total, 0)`
when `counts.sum()` is not positive, and otherwise runs the iterative
reweighted least-squares loop starting from unit weights. -/
def leastsq_iter_amplitude (xBest : List ℚ → List ℚ → List ℚ → List ℚ → ℚ)
    (counts background model : List ℚ) (maxiter : ℕ) (rtol : ℚ) : ℚ × ℕ :=
  let aMinTotal := amplitude_min_total background model
  if ¬ (0 < counts.sum) then (aMinTotal, 0)
  else
    leastsqLoop xBest counts background model aMinTotal rtol maxiter 0
      (model.map (fun _ => 1)) 0

/-- `_compute_flux_err_covar(x, counts, background, model)`: the closed-form
Fisher-information error
`sqrt(1 / Σ (model² * counts / (background + x*FLUX_FACTOR*model)²))`.
The float square root is supplied as the oracle `sqrtf`; theorems either
constrain it by `sqrtf v ^ 2 = v` or apply it only at arguments where the exact
square root is rational. -/
def compute_flux_err_covar (sqrtf : ℚ → ℚ) (x : ℚ) (counts background model : List ℚ) : ℚ :=
  sqrtf (1 / ((List.zip counts (List.zip background model)).map
    (fun t => t.2.2 * t.2.2 * t.1 /
      ((t.2.1 + x * FLUX_FACTOR * t.2.2) * (t.2.1 + x * FLUX_FACTOR * t.2.2)))).sum)

/-- `_compute_flux_err_conf(amplitude, counts, background, model, c_1, sigma)`:
a bracketed profile-likelihood search performed by the external `brentq` over
`[amplitude, amplitude + 1e4]`; its outcome is passed in abstractly (`some`
root, or `none` for a raised error).  On success the source returns
`root - amplitude`, on failure NaN. -/
def compute_flux_err_conf (confOutcome : Option ℚ) (amplitude : ℚ) : Option ℚ :=
  confOutcome.map (fun root => root - amplitude)

/-- The external and compiled routines a single estimator call depends on,
passed in explicitly: the float `log` and `sqrt`, the outcomes of the scipy
`brentq` calls (in the solver and in the two possible profile-likelihood
searches), the Cython weighted least-squares kernel, and scipy's
`fftconvolve`. -/
structure Oracles where
  logf : ℚ → ℚ
  sqrtf : ℚ → ℚ
  brentq : BrentqOutcome
  xBest : List ℚ → List ℚ → List ℚ → List ℚ → ℚ
  confErr : Option ℚ
  confUl : Option ℚ
  fftconvolve : Image → Image → Image

/-- What one `_ts_value` call hands back on its two return statements: the
threshold short-circuit path returns the bare 3-tuple
`(c_0 - c_1, flux * FLUX_FACTOR, 0)`, every other path a dict of named fields
(whose float values are `Option ℚ`, `none` standing for NaN). -/
inductive PixelOut where
  | tup (ts flux : ℚ) (niter : ℕ)
  | dict (fields : List (String × Option ℚ))
deriving DecidableEq

/-- The part of `_ts_value` after the window extraction and the threshold
check: solver dispatch on `method`, the TS/flux assembly
`ts = (c_0 - c_1) * np.sign(amplitude)`, `flux = amplitude * FLUX_FACTOR`, and
the conditional `flux_err`/`flux_ul` fields.  A `none` result is a raised
exception: an invalid `method` string (`ValueError`), a `'root newton'` fit
with no seed flux image (`TypeError` on `None[position]`), or the
`result['flux_err']` dict read in the `'covar'` upper-limit branch when no
error field was stored (`KeyError`). -/
def ts_value_fit (O : Oracles) (counts_w background_w model : List ℚ) (c_0 : ℚ)
    (fluxSeed : Option ℚ) (method error_method : String) (error_sigma : ℚ)
    (ul_method : String) (ul_sigma : ℚ) (rtol : ℚ) : Option PixelOut :=
  let fit : Option (Option ℚ × ℕ) :=
    if method = "root brentq" then
      some (root_amplitude_brentq O.brentq counts_w background_w model)
    else if method = "root newton" then
      match fluxSeed with
      | some seed => some (root_amplitude counts_w background_w model seed rtol)
      | none => none
    else if method = "leastsq iter" then
      let r := leastsq_iter_amplitude O.xBest counts_w background_w model MAX_NITER rtol
      some (some r.1, r.2)
    else none
  match fit with
  | none => none
  | some (amplitude, niter) =>
    let c_1 : Option ℚ := amplitude.map (fun a => f_cash O.logf a counts_w background_w model)
    let ts : Option ℚ :=
      match amplitude, c_1 with
      | some a, some c1 => some ((c_0 - c1) * npSign a)
      | _, _ => none
    let flux : Option ℚ := amplitude.map (fun a => a * FLUX_FACTOR)
    let fields0 : List (String × Option ℚ) :=
      [("ts", ts), ("flux", flux), ("niter", some niter)]
    let fields1 : List (String × Option ℚ) :=
      if error_method = "covar" then
        fields0 ++ [("flux_err",
          amplitude.map (fun a =>
            compute_flux_err_covar O.sqrtf a counts_w background_w model * error_sigma))]
      else if error_method = "conf" then
        fields0 ++ [("flux_err",
          (amplitude.bind (fun a => compute_flux_err_conf O.confErr a)).map
            (fun fe => FLUX_FACTOR * fe))]
      else fields0
    if ul_method = "covar" then
      match List.lookup "flux_err" fields1 with
      | none => none
      | some flux_err =>
        let flux_ul : Option ℚ :=
          match flux, flux_err with
          | some f, some fe => some (f + ul_sigma * fe)
          | _, _ => none
        some (.dict (fields1 ++ [("flux_ul", flux_ul)]))
    else if ul_method = "conf" then
      let flux_ul : Option ℚ :=
        match (amplitude.bind (fun a => compute_flux_err_conf O.confUl a)), flux with
        | some fu, some f => some (FLUX_FACTOR * fu + f)
        | _, _ => none
      some (.dict (fields1 ++ [("flux_ul", flux_ul)]))
    else some (.dict fields1)

/-- `_ts_value(position, counts, exposure, background, c_0, kernel, flux,
method, error_method, error_sigma, ul_method, ul_sigma, threshold, rtol)`:
extracts the kernel-shaped windows around `position`, builds the model template
`exposure_window * kernel.array`, sums the null-statistic window into `c_0`,
applies the threshold short-circuit (returning the bare tuple) when the seeded
improvement is below `threshold`, and otherwise fits.  A `none` result is a
raised exception (see `ts_value_fit`; additionally `flux[position]` on a `None`
flux image raises when `threshold` is set). -/
def ts_value (O : Oracles) (position : ℕ × ℕ)
    (counts exposure background c_0_img kernel : Image) (flux : Option Image)
    (method error_method : String) (error_sigma : ℚ) (ul_method : String)
    (ul_sigma : ℚ) (threshold : Option ℚ) (rtol : ℚ) : Option PixelOut :=
  let kshape := imShape kernel
  let counts_w := imFlat (extract_array counts kshape position)
  let background_w := imFlat (extract_array background kshape position)
  let exposure_w := imFlat (extract_array exposure kshape position)
  let c_0_w := imFlat (extract_array c_0_img kshape position)
  let model := List.zipWith (· * ·) exposure_w (imFlat kernel)
  let c_0 := c_0_w.sum
  let fluxSeed : Option ℚ := flux.map (fun im => imAt im position.1 position.2)
  match threshold with
  | some thr =>
    match fluxSeed with
    | none => none
    | some seed =>
      let c_1 := f_cash O.logf seed counts_w background_w model
      if c_0 - c_1 < thr then
        some (.tup (c_0 - c_1) (seed * FLUX_FACTOR) 0)
      else
        ts_value_fit O counts_w background_w model c_0 fluxSeed method
          error_method error_sigma ul_method ul_sigma rtol
  | none =>
    ts_value_fit O counts_w background_w model c_0 fluxSeed method
      error_method error_sigma ul_method ul_sigma rtol

/-- The parameter dict a `TSMapEstimator` stores after construction. -/
structure EstimatorParams where
  method : String
  error_method : String
  error_sigma : ℚ
  ul_method : String
  ul_sigma : ℚ
  n_jobs : ℕ
  threshold : Option ℚ
  rtol : ℚ
deriving DecidableEq

/-- `TSMapEstimator.__init__`: validates `method` against
`['root brentq', 'root newton', 'leastsq iter']` and `error_method` against
`['covar', 'conf']`, raising `ValueError` otherwise, and stores the parameters.
No other parameter — in particular `ul_method` — is validated. -/
def tsMapEstimatorInit (method error_method : String) (error_sigma : ℚ)
    (ul_method : String) (ul_sigma : ℚ) (n_jobs : ℕ) (threshold : Option ℚ)
    (rtol : ℚ) : Except String EstimatorParams :=
  if method ∉ ["root brentq", "root newton", "leastsq iter"] then
    Except.error ("Not a valid method: '" ++ method ++ "'")
  else if error_method ∉ ["covar", "conf"] then
    Except.error ("Not a valid error method '" ++ error_method ++ "'")
  else
    Except.ok
      { method := method, error_method := error_method, error_sigma := error_sigma,
        ul_method := ul_method, ul_sigma := ul_sigma, n_jobs := n_jobs,
        threshold := threshold, rtol := rtol }

/-- The input map stack handed to `TSMapEstimator.run`: `counts`, `background`
and `exposure` are required by the driver; a user `mask` is optional.  All
arrays share one geometry. -/
structure InputMaps where
  counts : Image
  background : Image
  exposure : Image
  mask : Option (List (List Bool))
deriving DecidableEq

/-- `TSMapEstimator.mask_default(maps, kernel)` as a pixel predicate: `1` on the
boundary-eroded interior `mask[k0//2 : -(k0//2)+1, k1//2 : -(k1//2)+1]`
(Python slice semantics, where e.g. `-kernel.shape[0] // 2 + 1` is the floor
division `(-k0) // 2` plus one), intersected with `exposure > 0`, and forced to
`0` wherever `background == 0`. -/
def mask_default (maps : InputMaps) (kernel : Image) (y x : ℕ) : Bool :=
  let hw := imShape maps.exposure
  let k := imShape kernel
  pySliceMem hw.1 ((k.1 : ℤ) / 2) (Int.fdiv (-(k.1 : ℤ)) 2 + 1) y &&
  pySliceMem hw.2 ((k.2 : ℤ) / 2) (Int.fdiv (-(k.2 : ℤ)) 2 + 1) x &&
  decide (0 < imAt maps.exposure y x) &&
  !decide (imAt maps.background y x = 0)

/-- The processing mask used by `run`: the default mask, `&=`-combined with the
user-supplied `mask` when one is present in the input stack. -/
def effective_mask (maps : InputMaps) (kernel : Image) (y x : ℕ) : Bool :=
  mask_default maps kernel y x &&
  (match maps.mask with
   | some m => (((m.get? y).bind (fun row => row.get? x)).getD false)
   | none => true)

/-- The row-major list of masked pixel positions, as produced by
`zip(*np.where(mask.data))` (the mask array shares `exposure`'s shape). -/
def maskedPositions (maps : InputMaps) (kernel : Image) : List (ℕ × ℕ) :=
  let hw := imShape maps.exposure
  (List.range hw.1).flatMap (fun y =>
    (List.range hw.2).filterMap (fun x =>
      if effective_mask maps kernel y x then some (y, x) else none))

/-- `TSMapEstimator.flux_default(maps, kernel)`:
`(counts - background) / exposure`, convolved by the external `fftconvolve`
with the kernel array, divided by `Σ kernel²`. -/
def flux_default (O : Oracles) (maps : InputMaps) (kernel : Image) : Image :=
  let f := imZip (fun nb e => nb / e) (imZip (fun n b => n - b) maps.counts maps.background)
    maps.exposure
  imMap (fun v => v / ((imFlat kernel).map (fun q => q * q)).sum) (O.fftconvolve f kernel)

/-- `TSMapEstimator.sqrt_ts` on one (possibly NaN) TS value:
`np.where(ts > 0, sqrt(ts), -sqrt(-ts))`, with NaN propagating. -/
def sqrt_ts_val (sqrtf : ℚ → ℚ) (ts : Option ℚ) : Option ℚ :=
  ts.map (fun t => if 0 < t then sqrtf t else -sqrtf (-t))

/-- The expansion of `which='all'` in `run`. -/
def whichAll : List String := ["ts", "sqrt_ts", "flux", "flux_err", "flux_ul", "niter"]

/-- The names whose per-pixel values `run` collects out of the result dicts:
always `ts`, `flux` and `niter`, plus `flux_err`/`flux_ul` when requested. -/
def collectNames (which : List String) : List String :=
  ["ts", "flux", "niter"] ++
  (if "flux_err" ∈ which then ["flux_err"] else []) ++
  (if "flux_ul" ∈ which then ["flux_ul"] else [])

/-- Reading field `name` out of one worker result during the driver's
collection phase: a bare tuple raises `TypeError` (string index into a tuple),
a dict without the key raises `KeyError`; both are modelled as `none`.  A
present field is returned with its (possibly NaN) value. -/
def collectPixel (r : PixelOut) (name : String) : Option (Option ℚ) :=
  match r with
  | .tup _ _ _ => none
  | .dict fields => List.lookup name fields

/-- The per-pixel evaluator exactly as `run` invokes it: `error_method` and
`ul_method` are replaced by `'none'` when the corresponding map is not
requested, the seed flux image exists only for `'root newton'`, and the
null-statistic image is the elementwise Cash statistic of the inputs. -/
def runPixel (O : Oracles) (p : EstimatorParams) (maps : InputMaps)
    (kernel : Image) (which : List String) (pos : ℕ × ℕ) : Option PixelOut :=
  ts_value O pos maps.counts maps.exposure maps.background
    (cash_image O.logf maps.counts maps.background) kernel
    (if p.method = "root newton" then some (flux_default O maps kernel) else none)
    p.method (if "flux_err" ∈ which then p.error_method else "none") p.error_sigma
    (if "flux_ul" ∈ which then p.ul_method else "none") p.ul_sigma p.threshold
    p.rtol

/-- Whether a ``run`` dispatched over the position list `order` completes
without raising: the position list must be nonempty (`j, i = zip(*positions)`
raises `ValueError` on an empty mask), every requested map name must exist in
the result stack the collection loop indexes (`ts`, `flux`, `niter` are always
indexed), every worker must return without an exception, and every collected
field must be present in every worker's result dict. -/
def runOk (O : Oracles) (p : EstimatorParams) (maps : InputMaps)
    (kernel : Image) (which : List String) (order : List (ℕ × ℕ)) : Bool :=
  (!order.isEmpty && ["ts", "flux", "niter"].all (fun name => name ∈ which)) &&
  order.all (fun pos =>
    match runPixel O p maps kernel which pos with
    | none => false
    | some r => (collectNames which).all (fun name => (collectPixel r name).isSome))

/-- The value the driver's result stack holds at map `name`, pixel `(y, x)`,
after dispatching over the position list `order`: maps are pre-filled with NaN
and overwritten only at dispatched positions, each worker writing solely to its
own coordinates; `sqrt_ts` is derived afterwards from the collected `ts` map. -/
def runResultAt (O : Oracles) (p : EstimatorParams) (maps : InputMaps)
    (kernel : Image) (which : List String) (order : List (ℕ × ℕ))
    (name : String) (y x : ℕ) : Option ℚ :=
  if name ∉ which then none
  else
    let fieldAt : String → Option ℚ := fun fname =>
      if (y, x) ∈ order then
        match runPixel O p maps kernel which (y, x) with
        | some r => (collectPixel r fname).join
        | none => none
      else none
    if name = "sqrt_ts" then sqrt_ts_val O.sqrtf (fieldAt "ts")
    else if name ∈ collectNames which then fieldAt name
    else none

/-- `TSMapEstimator.run(maps, kernel, which)` with `n_jobs = 1`: the sequential
dispatch over the row-major masked positions, returning the result-map stack as
a function of map name and pixel, or the exception raised during collection. -/
def runTS (O : Oracles) (p : EstimatorParams) (maps : InputMaps)
    (kernel : Image) (which : List String) :
    Except String (String → ℕ → ℕ → Option ℚ) :=
  let order := maskedPositions maps kernel
  if runOk O p maps kernel which order then
    Except.ok (runResultAt O p maps kernel which order)
  else Except.error "run raised during result collection"

/-- The name/interpolation-order pairs the downsampled branch of
`compute_ts_image_multiscale` iterates over:
`zip(['ts', 'sqrt_ts', 'flux', 'flux_err', 'niter'], [1, 1, 1, 0])`
(Python `zip` truncates to the shorter list). -/
def upsampleNamesOrders : List (String × ℕ) :=
  List.zip ["ts", "sqrt_ts", "flux", "flux_err", "niter"] [1, 1, 1, 0]

/-- The `preserve_counts = name in ['flux', 'flux_err']` flag of the upsample
loop in `compute_ts_image_multiscale`. -/
def upsamplePreserveCounts (name : String) : Bool :=
  name ∈ ["flux", "flux_err"]

/-- Modelled from the spec: `shape_2N` (from `gammapy.utils.array`, not part of
the repository snapshot) pads an axis length up to the next multiple of
`2^3 = 8` ("pad the image stack to the next shape divisible by the factor — a
power-of-two-friendly padding"); `symmetric_crop_pad_width` is the difference
this leaves to crop back off. -/
def shape_2N (n : ℕ) : ℕ := 8 * ((n + 7) / 8)

/-- The spatial shape of the result map `name` after the post-processing loop
of `compute_ts_image_multiscale`: when the scale was downsampled by `factor`,
maps named in `upsampleNamesOrders` are upsampled by `factor` and cropped by
the original pad width, every other map keeps the downsampled shape. -/
def multiscaleResultShape (downsampled : Bool) (factor : ℕ) (orig : ℕ × ℕ)
    (name : String) : ℕ × ℕ :=
  if ¬ downsampled then orig
  else
    let padded := (shape_2N orig.1, shape_2N orig.2)
    let down := (padded.1 / factor, padded.2 / factor)
    if name ∈ upsampleNamesOrders.map Prod.fst then
      (down.1 * factor - (padded.1 - orig.1), down.2 * factor - (padded.2 - orig.2))
    else down

/-- One entry of the scale series consumed by `compute_maximum_ts_image`
(attribute access `result.ts`, `result.niter`, `result.amplitude`,
`result.scale`, `result.morphology`). -/
structure ScaleResult where
  ts : Image
  niter : Image
  amplitude : Image
  scale : ℚ
  morphology : String
deriving DecidableEq

/-- `np.max(np.dstack([...ts...]), axis=2)` at one pixel: the per-pixel maximum
of the stacked TS arrays (numpy raises on an empty stack; the `[]` case is
junk-valued and never instantiated). -/
def ts_max_at (rs : List ScaleResult) (y x : ℕ) : ℚ :=
  match rs.map (fun r => imAt r.ts y x) with
  | [] => 0
  | h :: t => t.foldl max h

/-- The gather loop of `compute_maximum_ts_image` at one pixel: iterating over
the scales in order, every scale whose `ts` equals the per-pixel maximum
overwrites the output (initialised to `0`) with its payload, so the last
maximising scale wins. -/
def gather_max_at (rs : List ScaleResult) (payload : ScaleResult → ℕ → ℕ → ℚ)
    (y x : ℕ) : ℚ :=
  rs.foldl (fun acc r => if imAt r.ts y x = ts_max_at rs y x then payload r y x else acc) 0

/-- The `scale_max` gather of `compute_maximum_ts_image`. -/
def scale_max_at (rs : List ScaleResult) (y x : ℕ) : ℚ :=
  gather_max_at rs (fun r _ _ => r.scale) y x

/-- The `niter_max` gather of `compute_maximum_ts_image`. -/
def niter_max_at (rs : List ScaleResult) (y x : ℕ) : ℚ :=
  gather_max_at rs (fun r y x => imAt r.niter y x) y x

/-- The `amplitude_max` gather of `compute_maximum_ts_image`. -/
def amplitude_max_at (rs : List ScaleResult) (y x : ℕ) : ℚ :=
  gather_max_at rs (fun r y x => imAt r.amplitude y x) y x

/-- `compute_maximum_ts_image(ts_image_results)`: the source computes the
per-pixel maxima and gathers (`ts_max_at`, `scale_max_at`, `niter_max_at`,
`amplitude_max_at`, evaluated here over the first result's grid and then
discarded exactly as the source's locals are when the final statement raises)
and then executes `SkyImageList([SkyImage(...), ...])` — but neither
`SkyImageList` nor `SkyImage` is imported anywhere in `test_statistics.py`,
so the return statement raises `NameError` unconditionally. -/
def compute_maximum_ts_image (rs : List ScaleResult) :
    Except String (List (String × Image)) :=
  let shape := imShape ((rs.map ScaleResult.ts).headD [])
  let grid : (ℕ → ℕ → ℚ) → Image := fun f =>
    (List.range shape.1).map (fun y => (List.range shape.2).map (fun x => f y x))
  let _ts_max := grid (ts_max_at rs)
  let _scale_max := grid (scale_max_at rs)
  let _niter_max := grid (niter_max_at rs)
  let _amplitude_max := grid (amplitude_max_at rs)
  Except.error "NameError: name 'SkyImageList' is not defined"

/-- A concrete oracle bundle used by the closed evaluations below.  `logf` is
only ever applied where its coefficient is `0` or its argument is `1`, and
`sqrtf` only at perfect squares, so `fun _ => 0` and the identity are exact
there; the remaining components are unreachable on the instantiated paths. -/
def O1 : Oracles :=
  { logf := fun _ => 0, sqrtf := fun q => q, brentq := .failure,
    xBest := fun _ _ _ _ => 0, confErr := none, confUl := none,
    fftconvolve := fun a _ => a }

/-- A second concrete oracle bundle whose `brentq` call succeeds with root `0`
after one reported iteration (the other components as in `O1`). -/
def O2 : Oracles :=
  { logf := fun _ => 0, sqrtf := fun q => q, brentq := .success 0 1,
    xBest := fun _ _ _ _ => 0, confErr := none, confUl := none,
    fftconvolve := fun a _ => a }

/-- A concrete 3×3 input stack whose pixel `(0, 0)` has zero background. -/
def mapsC6 : InputMaps :=
  { counts := [[1, 1, 1], [1, 1, 1], [1, 1, 1]],
    background := [[0, 1, 1], [1, 1, 1], [1, 1, 1]],
    exposure := [[1, 1, 1], [1, 1, 1], [1, 1, 1]],
    mask := none }

/-- A concrete 3×3 kernel. -/
def kernel3 : Image := [[1, 1, 1], [1, 1, 1], [1, 1, 1]]

/-- A concrete valid parameter set (`'root brentq'`, covariance errors and
upper limits, no threshold). -/
def paramsC6 : EstimatorParams :=
  { method := "root brentq", error_method := "covar", error_sigma := 1,
    ul_method := "covar", ul_sigma := 2, n_jobs := 1, threshold := none,
    rtol := RTOL }

/-- A concrete 1×1 scale result with the smaller TS. -/
def r1C8 : ScaleResult :=
  { ts := [[1]], niter := [[3]], amplitude := [[5]], scale := 1,
    morphology := "Gaussian2D" }

/-- A concrete 1×1 scale result whose TS strictly dominates `r1C8`. -/
def r2C8 : ScaleResult :=
  { ts := [[2]], niter := [[4]], amplitude := [[6]], scale := 2,
    morphology := "Gaussian2D" }

/-- The parameter record a `TSMapEstimator` constructed with an arbitrary
`ul_method` string `s` (and otherwise default-style valid settings) stores. -/
def paramsUl (s : String) (error_sigma ul_sigma : ℚ) (n_jobs : ℕ) (rtol : ℚ) :
    EstimatorParams :=
  { method := "root brentq", error_method := "covar", error_sigma := error_sigma,
    ul_method := s, ul_sigma := ul_sigma, n_jobs := n_jobs, threshold := none,
    rtol := rtol }

/-- C1.  The claim's sign convention `ts = (c_0 - c_1) * sign(amplitude)`, and
with it `sign(ts) == sign(flux)`, is violated by the threshold short-circuit
path of `_ts_value`.  Failing input: a 1×1 window with `counts = 0`,
`background = 1`, `exposure = 1`, kernel `[[1]]`, seed flux `-1e11` and
`threshold = 1`: the seeded improvement is `c_0 - c_1 = 1/5 < 1`, so the code
returns `ts = c_0 - c_1 = 1/5 > 0` (no `sign` factor) with
`flux = -1/10 < 0`, while `(c_0 - c_1) * sign(amplitude) = -1/5`. -/
theorem C1_ts_sign_convention_violated_on_threshold_path :
    ts_value O1 (0, 0) [[0]] [[1]] [[1]] (cash_image O1.logf [[0]] [[1]]) [[1]]
        (some [[-(100000000000 : ℚ)]]) "root newton" "none" 1 "none" 2 (some 1) RTOL =
      some (.tup (1 / 5) (-(1 / 10)) 0) ∧
    (0 : ℚ) < 1 / 5 ∧ (-(1 / 10) : ℚ) < 0 ∧
    (1 / 5 : ℚ) ≠
      (2 - f_cash O1.logf (-(100000000000 : ℚ)) [0] [1] [1]) * npSign (-(100000000000 : ℚ)) := by
  refine ⟨?_, by norm_num, by norm_num, ?_⟩
  · norm_num [ts_value, O1, cash_image, imZip, imShape, imFlat, imAt, extract_array,
      pySlice, f_cash, cash_sum, FLUX_FACTOR, RTOL]
  · norm_num [O1, f_cash, cash_sum, FLUX_FACTOR, npSign]

/-- C2.  On the threshold short-circuit path `_ts_value` returns the bare tuple
`(c_0 - c_1, flux * FLUX_FACTOR, 0)` instead of a `{ts, flux, niter}` record,
so the driver's collection `result[name]` (string-indexing a tuple) raises
`TypeError` for that pixel rather than succeeding.  Same failing input as
`C1_ts_sign_convention_violated_on_threshold_path`. -/
theorem C2_threshold_path_returns_tuple_not_record :
    ts_value O1 (0, 0) [[0]] [[1]] [[1]] (cash_image O1.logf [[0]] [[1]]) [[1]]
        (some [[-(100000000000 : ℚ)]]) "root newton" "none" 1 "none" 2 (some 1) RTOL =
      some (.tup (1 / 5) (-(1 / 10)) 0) ∧
    collectPixel (.tup (1 / 5) (-(1 / 10)) 0) "ts" = none ∧
    collectPixel (.tup (1 / 5) (-(1 / 10)) 0) "flux" = none ∧
    collectPixel (.tup (1 / 5) (-(1 / 10)) 0) "niter" = none := by
  refine ⟨?_, rfl, rfl, rfl⟩
  norm_num [ts_value, O1, cash_image, imZip, imShape, imFlat, imAt, extract_array,
    pySlice, f_cash, cash_sum, FLUX_FACTOR, RTOL]

/-- When the two secant ordinates coincide, one pass of the scipy secant loop
returns the midpoint of the current bracket. -/
theorem secantLoop_flat (f : ℚ → ℚ) (tol : ℚ) (fuel : ℕ) (p0 p1 q : ℚ) :
    secantLoop f tol (fuel + 1) p0 p1 q q = some ((p1 + p0) / 2) := by
  simp [secantLoop]

/-- C3 (amended).  The `counts.sum() == 0` short-circuit exists in exactly two
of the three solvers: `_root_amplitude_brentq` and `_leastsq_iter_amplitude`
both return `(amplitude_min_total, 0)` without invoking the optimization when
the window's counts do not sum to a positive value, for every outcome of the
external routines. -/
theorem C3_null_shortcircuit_brentq_leastsq
    (brentq : BrentqOutcome) (xBest : List ℚ → List ℚ → List ℚ → List ℚ → ℚ)
    (counts background model : List ℚ) (maxiter : ℕ) (rtol : ℚ)
    (h : ¬ 0 < counts.sum) :
    root_amplitude_brentq brentq counts background model =
      (some (amplitude_min_total background model), 0) ∧
    leastsq_iter_amplitude xBest counts background model maxiter rtol =
      (amplitude_min_total background model, 0) := by
  constructor
  · simp [root_amplitude_brentq, h]
  · simp [leastsq_iter_amplitude, h]

/-- Witness for `C3_null_shortcircuit_brentq_leastsq` at a concrete all-zero
counts window. -/
theorem C3_null_shortcircuit_witness :
    root_amplitude_brentq .failure [0, 0] [1, 1] [1, 2] =
      (some (amplitude_min_total [1, 1] [1, 2]), 0) ∧
    leastsq_iter_amplitude (fun _ _ _ _ => 5) [0, 0] [1, 1] [1, 2] 20 RTOL =
      (amplitude_min_total [1, 1] [1, 2], 0) :=
  C3_null_shortcircuit_brentq_leastsq .failure (fun _ _ _ _ => 5) [0, 0] [1, 1]
    [1, 2] 20 RTOL (by norm_num)

/-- C3 (counterexample).  The third solver, `_root_amplitude` (`'root
newton'`), has no such short-circuit: it never computes the amplitude bounds
and invokes the external root search regardless.  On the all-zero-counts 1×1
window `counts = [0]`, `background = [1]`, `model = [1]` with seed flux `0`,
the Cash derivative is the positive constant `2e-12`, the secant iteration's
ordinates coincide immediately, and the solver returns the secant midpoint
`1/20000` (with `niter = 0`) — not `amplitude_min_total = -1e12`.  (In later
scipy releases the same flat secant raises instead, giving `(NaN, 20)`; under
neither behaviour does the claimed `(amplitude_min_total, 0)` hold.) -/
theorem C3_newton_no_null_shortcircuit :
    root_amplitude [0] [1] [1] 0 RTOL = (some (1 / 20000), 0) ∧
    (1 / 20000 : ℚ) ≠ amplitude_min_total [1] [1] := by
  have hf : ∀ x : ℚ, f_cash_root [0] [1] [1] x = 1 / 500000000000 := by
    intro x
    norm_num [f_cash_root, FLUX_FACTOR]
  have hs : scipyNewton (f_cash_root [0] [1] [1]) 0 RTOL MAX_NITER =
      some (1 / 20000) := by
    rw [scipyNewton]
    norm_num [hf]
    rw [show MAX_NITER = 19 + 1 from rfl, secantLoop_flat]
    norm_num
  constructor
  · simp [root_amplitude, hs]
  · norm_num [amplitude_min_total, FLUX_FACTOR, List.zip, List.zipWith, List.filterMap]

/-- C4.  For every window with positive summed counts, the bracketed-root
solver returns, on a successful external `brentq` call, the root floored at
`amplitude_min_total` (hence an amplitude `≥ amplitude_min_total`) together
with the reported iteration count, and on a raised
`RuntimeError`/`ValueError` (invalid bracket or non-convergence within
`MAX_NITER`) the NaN amplitude with `niter = MAX_NITER`; being a total
function of the outcome, it never raises. -/
theorem C4_brentq_solver_contract (counts background model : List ℚ)
    (outcome : BrentqOutcome) (h : 0 < counts.sum) :
    (∀ root iterations, outcome = .success root iterations →
      root_amplitude_brentq outcome counts background model =
        (some (max root (amplitude_min_total background model)), iterations) ∧
      amplitude_min_total background model ≤
        max root (amplitude_min_total background model)) ∧
    (outcome = .failure →
      root_amplitude_brentq outcome counts background model = (none, MAX_NITER)) := by
  constructor
  · rintro root iterations rfl
    exact ⟨by simp [root_amplitude_brentq, h], le_max_right _ _⟩
  · rintro rfl
    simp [root_amplitude_brentq, h]

/-- Witness for `C4_brentq_solver_contract` at a concrete window and a
successful outcome. -/
theorem C4_brentq_solver_contract_witness :
    root_amplitude_brentq (.success 2 3) [1] [1] [1] =
      (some (max 2 (amplitude_min_total [1] [1])), 3) ∧
    root_amplitude_brentq .failure [1] [1] [1] = (none, MAX_NITER) :=
  ⟨((C4_brentq_solver_contract [1] [1] [1] (.success 2 3) (by norm_num)).1 2 3 rfl).1,
   (C4_brentq_solver_contract [1] [1] [1] .failure (by norm_num)).2 rfl⟩

/-- C5 (amended).  With `error_method = 'covar'` and `ul_method = 'covar'`, the
per-pixel evaluator stores `flux_err = σ * error_sigma` for the closed-form
Fisher error `σ = compute_flux_err_covar(...)`, and then
`flux_ul = flux + ul_sigma * result['flux_err']`, i.e.
`flux_ul - flux = ul_sigma * error_sigma * σ` — the claimed
`flux_ul - flux = ul_sigma * σ` therefore holds exactly when
`error_sigma = 1` (the default), not for every configuration. -/
theorem C5_flux_ul_covar_formula (O : Oracles) (counts_w background_w model : List ℚ)
    (c_0 : ℚ) (fluxSeed : Option ℚ) (error_sigma ul_sigma rtol : ℚ)
    (root : ℚ) (iterations : ℕ) (hb : O.brentq = .success root iterations)
    (hc : 0 < counts_w.sum) :
    ts_value_fit O counts_w background_w model c_0 fluxSeed "root brentq"
        "covar" error_sigma "covar" ul_sigma rtol =
      some (.dict
        [("ts", some ((c_0 -
            f_cash O.logf (max root (amplitude_min_total background_w model))
              counts_w background_w model) *
            npSign (max root (amplitude_min_total background_w model)))),
         ("flux", some (max root (amplitude_min_total background_w model) * FLUX_FACTOR)),
         ("niter", some (iterations : ℚ)),
         ("flux_err", some (compute_flux_err_covar O.sqrtf
            (max root (amplitude_min_total background_w model)) counts_w background_w
            model * error_sigma)),
         ("flux_ul", some (max root (amplitude_min_total background_w model) * FLUX_FACTOR +
            ul_sigma * (compute_flux_err_covar O.sqrtf
              (max root (amplitude_min_total background_w model)) counts_w background_w
              model * error_sigma)))]) ∧
    (max root (amplitude_min_total background_w model) * FLUX_FACTOR +
        ul_sigma * (compute_flux_err_covar O.sqrtf
          (max root (amplitude_min_total background_w model)) counts_w background_w
          model * error_sigma)) -
      max root (amplitude_min_total background_w model) * FLUX_FACTOR =
      ul_sigma * error_sigma * compute_flux_err_covar O.sqrtf
        (max root (amplitude_min_total background_w model)) counts_w background_w
        model := by
  constructor
  · simp [ts_value_fit, root_amplitude_brentq, hb, hc, String.reduceEq, List.lookup]
  · ring

/-- Witness for `C5_flux_ul_covar_formula` at a concrete window and
configuration (`error_sigma = 2`, `ul_sigma = 2`). -/
theorem C5_flux_ul_covar_formula_witness :
    ts_value_fit O2 [1] [1] [1] 2 none "root brentq" "covar" 2 "covar" 2 RTOL =
      some (.dict
        [("ts", some ((2 - f_cash O2.logf (max 0 (amplitude_min_total [1] [1])) [1] [1] [1]) *
            npSign (max 0 (amplitude_min_total [1] [1])))),
         ("flux", some (max 0 (amplitude_min_total [1] [1]) * FLUX_FACTOR)),
         ("niter", some (1 : ℚ)),
         ("flux_err", some (compute_flux_err_covar O2.sqrtf
            (max 0 (amplitude_min_total [1] [1])) [1] [1] [1] * 2)),
         ("flux_ul", some (max 0 (amplitude_min_total [1] [1]) * FLUX_FACTOR +
            2 * (compute_flux_err_covar O2.sqrtf
              (max 0 (amplitude_min_total [1] [1])) [1] [1] [1] * 2)))]) :=
  ((C5_flux_ul_covar_formula O2 [1] [1] [1] 2 none 2 2 RTOL 0 1 rfl (by norm_num)).1)

/-- C5 (counterexample).  At the concrete window `counts = background = model
= [1]` with fitted amplitude `0` (so `σ = sqrt(1) = 1` exactly), `error_sigma
= 2` and `ul_sigma = 2`, the evaluator returns `flux = 0`, `flux_err = 2` and
`flux_ul = 4`, so `flux_ul - flux = 4 ≠ 2 = ul_sigma * σ`: the claimed
`flux_ul - flux = ul_sigma · σ` fails for `error_sigma > 1`. -/
theorem C5_flux_ul_scaling_counterexample :
    ts_value_fit O2 [1] [1] [1] 2 none "root brentq" "covar" 2 "covar" 2 RTOL =
      some (.dict
        [("ts", some 0), ("flux", some 0), ("niter", some 1),
         ("flux_err", some 2), ("flux_ul", some 4)]) ∧
    compute_flux_err_covar O2.sqrtf 0 [1] [1] [1] = 1 ∧
    (4 : ℚ) - 0 ≠ 2 * 1 := by
  refine ⟨?_, ?_, by norm_num⟩
  · norm_num [ts_value_fit, root_amplitude_brentq, O2, amplitude_min_total,
      compute_flux_err_covar, f_cash, cash_sum, npSign, FLUX_FACTOR,
      String.reduceEq, List.lookup, List.zip, List.zipWith, List.filterMap]
    norm_num [show ("flux_err" == "ts") = false from by decide,
      show ("flux_err" == "flux") = false from by decide,
      show ("flux_err" == "niter") = false from by decide]
  · norm_num [compute_flux_err_covar, O2, FLUX_FACTOR, List.zip, List.zipWith]

/-- A position dispatched by the driver satisfies the effective processing
mask (`np.where` only returns positions where the mask is nonzero). -/
theorem effective_mask_of_mem_maskedPositions (maps : InputMaps) (kernel : Image)
    (y x : ℕ) (h : (y, x) ∈ maskedPositions maps kernel) :
    effective_mask maps kernel y x = true := by
  simp only [maskedPositions, List.mem_flatMap, List.mem_filterMap, List.mem_range] at h
  obtain ⟨y', -, x', -, hx⟩ := h
  by_cases hm : effective_mask maps kernel y' x' = true
  · rw [if_pos hm, Option.some_inj] at hx
    obtain ⟨rfl, rfl⟩ := Prod.mk.injEq _ _ _ _ ▸ hx
    exact hm
  · rw [if_neg hm] at hx
    exact absurd hx (by simp)

/-- C6.  Any pixel with `background == 0` or `exposure <= 0` is excluded from
the processing mask by `mask_default`, is therefore never dispatched to the
per-pixel evaluator, and remains NaN in every output map of a completed
`run`. -/
theorem C6_degenerate_pixels_stay_nan (O : Oracles) (p : EstimatorParams)
    (maps : InputMaps) (kernel : Image) (which : List String) (name : String)
    (y x : ℕ)
    (hdeg : imAt maps.background y x = 0 ∨ imAt maps.exposure y x ≤ 0)
    (hok : runOk O p maps kernel which (maskedPositions maps kernel) = true) :
    runResultAt O p maps kernel which (maskedPositions maps kernel) name y x = none := by
  have hmask : effective_mask maps kernel y x = false := by
    rcases hdeg with h0 | h0
    · simp [effective_mask, mask_default, h0]
    · simp [effective_mask, mask_default, not_lt.2 h0]
  have hmem : (y, x) ∉ maskedPositions maps kernel := by
    intro hm
    rw [effective_mask_of_mem_maskedPositions maps kernel y x hm] at hmask
    exact absurd hmask (by simp)
  simp only [runResultAt]
  split_ifs <;> simp [hmem, sqrt_ts_val]

set_option maxHeartbeats 2000000 in
/-- On the concrete 3×3 stack with a 3×3 kernel the processing mask selects
exactly the centre pixel. -/
theorem maskedPositions_mapsC6 : maskedPositions mapsC6 kernel3 = [(1, 1)] := by
  norm_num [maskedPositions, List.range_succ, effective_mask, mask_default,
    pySliceMem, imShape, imAt, mapsC6, kernel3,
    show Int.fdiv (-3) 2 = -2 from by decide]
  decide

set_option maxHeartbeats 2000000 in
/-- The evaluator's result at the centre pixel of the concrete 3×3 stack: a
five-field dict (the `flux_err`/`flux_ul` values use the identity `sqrtf`
oracle of `O2`). -/
theorem ts_value_mapsC6 :
    ts_value O2 (1, 1) mapsC6.counts mapsC6.exposure mapsC6.background
      [[0, 2, 2], [2, 2, 2], [2, 2, 2]] kernel3 none "root brentq" "covar" 1
      "covar" 2 none RTOL =
      some (.dict
        [("ts", some 0), ("flux", some 0), ("niter", some 1),
         ("flux_err", some (1 / 8)), ("flux_ul", some (1 / 4))]) := by
  have hsh : imShape kernel3 = (3, 3) := rfl
  have hcw : imFlat (extract_array mapsC6.counts (3, 3) (1, 1)) =
      [1, 1, 1, 1, 1, 1, 1, 1, 1] := rfl
  have hbw : imFlat (extract_array mapsC6.background (3, 3) (1, 1)) =
      [0, 1, 1, 1, 1, 1, 1, 1, 1] := rfl
  have hew : imFlat (extract_array mapsC6.exposure (3, 3) (1, 1)) =
      [1, 1, 1, 1, 1, 1, 1, 1, 1] := rfl
  have hc0w : imFlat (extract_array [[0, 2, 2], [2, 2, 2], [2, 2, 2]] (3, 3) (1, 1)) =
      [0, 2, 2, 2, 2, 2, 2, 2, 2] := rfl
  have hker : imFlat kernel3 = [1, 1, 1, 1, 1, 1, 1, 1, 1] := rfl
  simp only [ts_value, hsh, hcw, hbw, hew, hc0w, hker]
  norm_num [ts_value_fit, root_amplitude_brentq, amplitude_min_total, O2,
    f_cash, cash_sum, compute_flux_err_covar, npSign, FLUX_FACTOR, RTOL,
    List.lookup, List.zip, List.zipWith, List.filterMap,
    show ("flux_err" == "ts") = false from by decide,
    show ("flux_err" == "flux") = false from by decide,
    show ("flux_err" == "niter") = false from by decide]

/-- The per-pixel result at the centre pixel of the concrete 3×3 stack, as the
driver invokes the evaluator. -/
theorem runPixel_mapsC6 :
    runPixel O2 paramsC6 mapsC6 kernel3 whichAll (1, 1) =
      some (.dict
        [("ts", some 0), ("flux", some 0), ("niter", some 1),
         ("flux_err", some (1 / 8)), ("flux_ul", some (1 / 4))]) := by
  have hc0 : cash_image O2.logf mapsC6.counts mapsC6.background =
      [[0, 2, 2], [2, 2, 2], [2, 2, 2]] := by
    norm_num [cash_image, imZip, mapsC6, O2]
  rw [runPixel, hc0]
  rw [show (if paramsC6.method = "root newton" then
        some (flux_default O2 mapsC6 kernel3) else none) = none from by
      simp [paramsC6]]
  norm_num [paramsC6, whichAll]
  exact ts_value_mapsC6

set_option maxHeartbeats 1000000 in
/-- Witness for `C6_degenerate_pixels_stay_nan`: on the concrete stack the run
completes (`runOk`), pixel `(0, 0)` is degenerate, and its `ts` output is
NaN. -/
theorem C6_degenerate_pixels_stay_nan_witness :
    imAt mapsC6.background 0 0 = 0 ∧
    runOk O2 paramsC6 mapsC6 kernel3 whichAll (maskedPositions mapsC6 kernel3) = true ∧
    runResultAt O2 paramsC6 mapsC6 kernel3 whichAll (maskedPositions mapsC6 kernel3)
      "ts" 0 0 = none := by
  have h1 : imAt mapsC6.background 0 0 = 0 := by norm_num [mapsC6, imAt]
  have h2 : runOk O2 paramsC6 mapsC6 kernel3 whichAll (maskedPositions mapsC6 kernel3) =
      true := by
    rw [maskedPositions_mapsC6]
    simp only [runOk, List.all_cons, List.all_nil, runPixel_mapsC6]
    norm_num [collectNames, whichAll, collectPixel, List.lookup]
    decide
  exact ⟨h1, h2,
    C6_degenerate_pixels_stay_nan O2 paramsC6 mapsC6 kernel3 whichAll "ts" 0 0
      (Or.inl h1) h2⟩

/-- C7.  `compute_ts_image_multiscale` zips five result-map names with only
four interpolation orders, so Python's `zip` silently drops `'niter'`: after a
downsampled run (here factor 2 on an 8×8 map) the `ts`/`sqrt_ts`/`flux`/
`flux_err` maps are upsampled and cropped back to the original 8×8 shape, but
the `niter` map keeps the 4×4 downsampled shape; moreover `flux_err` receives
interpolation order 0 (with `preserve_counts`), not the claimed order 1. -/
theorem C7_niter_not_upsampled :
    upsampleNamesOrders = [("ts", 1), ("sqrt_ts", 1), ("flux", 1), ("flux_err", 0)] ∧
    "niter" ∉ upsampleNamesOrders.map Prod.fst ∧
    upsamplePreserveCounts "flux_err" = true ∧
    upsamplePreserveCounts "niter" = false ∧
    multiscaleResultShape true 2 (8, 8) "ts" = (8, 8) ∧
    multiscaleResultShape true 2 (8, 8) "flux_err" = (8, 8) ∧
    multiscaleResultShape true 2 (8, 8) "niter" = (4, 4) ∧
    (4, 4) ≠ ((8, 8) : ℕ × ℕ) := by
  refine ⟨by decide, by decide, by decide, by decide, ?_, ?_, ?_, by decide⟩ <;>
    decide

/-- C8.  On a two-scale series where the second scale's TS strictly dominates
at every pixel, the reduction arrays computed inside
`compute_maximum_ts_image` do equal the dominating scale's `ts`, `niter` and
`amplitude` with a uniform `scale` — but the function itself raises
`NameError` at its return statement (`SkyImageList`/`SkyImage` are not
imported in the module), so it never returns them. -/
theorem C8_maximum_ts_image_raises_nameerror :
    compute_maximum_ts_image [r1C8, r2C8] =
      Except.error "NameError: name 'SkyImageList' is not defined" ∧
    imAt r1C8.ts 0 0 < imAt r2C8.ts 0 0 ∧
    ts_max_at [r1C8, r2C8] 0 0 = imAt r2C8.ts 0 0 ∧
    niter_max_at [r1C8, r2C8] 0 0 = imAt r2C8.niter 0 0 ∧
    amplitude_max_at [r1C8, r2C8] 0 0 = imAt r2C8.amplitude 0 0 ∧
    scale_max_at [r1C8, r2C8] 0 0 = r2C8.scale := by
  refine ⟨rfl, ?_, ?_, ?_, ?_, ?_⟩ <;>
    norm_num [r1C8, r2C8, imAt, ts_max_at, niter_max_at, amplitude_max_at,
      scale_max_at, gather_max_at]

/-- C9.  The driver's output depends only on the set of dispatched positions,
not on the order in which they are dispatched: any two schedules containing
the same positions give identical collection success and bit-identical result
maps.  Since a sequential (`n_jobs = 1`) run always dispatches the canonical
row-major `maskedPositions`, two runs on identical inputs are in particular
bit-identical. -/
theorem C9_run_deterministic_schedule_independent (O : Oracles)
    (p : EstimatorParams) (maps : InputMaps) (kernel : Image)
    (which : List String) (o₁ o₂ : List (ℕ × ℕ))
    (h : ∀ q : ℕ × ℕ, q ∈ o₁ ↔ q ∈ o₂) :
    runOk O p maps kernel which o₁ = runOk O p maps kernel which o₂ ∧
    runResultAt O p maps kernel which o₁ = runResultAt O p maps kernel which o₂ := by
  have hb : ∀ a b : Bool, (a = true ↔ b = true) → a = b := by decide
  have hemp : o₁.isEmpty = o₂.isEmpty := by
    apply hb
    simp only [List.isEmpty_iff]
    constructor
    · rintro rfl
      rw [List.eq_nil_iff_forall_not_mem]
      exact fun q hq => List.not_mem_nil q ((h q).2 hq)
    · rintro rfl
      rw [List.eq_nil_iff_forall_not_mem]
      exact fun q hq => List.not_mem_nil q ((h q).1 hq)
  constructor
  · unfold runOk
    rw [hemp]
    congr 1
    apply hb
    simp only [List.all_eq_true]
    exact ⟨fun hp q hq => hp q ((h q).2 hq), fun hp q hq => hp q ((h q).1 hq)⟩
  · funext name y x
    simp only [runResultAt]
    by_cases hm : (y, x) ∈ o₁
    · have hm2 := (h (y, x)).1 hm
      simp [hm, hm2]
    · have hm2 : (y, x) ∉ o₂ := fun c => hm ((h (y, x)).2 c)
      simp [hm, hm2]

/-- Witness for `C9_run_deterministic_schedule_independent`: two concrete
schedules with the same positions (one listing the centre pixel twice). -/
theorem C9_run_deterministic_witness :
    runOk O2 paramsC6 mapsC6 kernel3 whichAll [(1, 1)] =
      runOk O2 paramsC6 mapsC6 kernel3 whichAll [(1, 1), (1, 1)] ∧
    runResultAt O2 paramsC6 mapsC6 kernel3 whichAll [(1, 1)] =
      runResultAt O2 paramsC6 mapsC6 kernel3 whichAll [(1, 1), (1, 1)] :=
  C9_run_deterministic_schedule_independent O2 paramsC6 mapsC6 kernel3 whichAll
    [(1, 1)] [(1, 1), (1, 1)] (by intro q; simp)

/-- If an element of a list falsifies the predicate, `List.all` is `false`. -/
theorem all_false_of_mem {α : Type} (l : List α) (p : α → Bool) (a : α)
    (ha : a ∈ l) (hp : p a = false) : l.all p = false := by
  rw [← Bool.not_eq_true]
  intro hall
  rw [List.all_eq_true] at hall
  have := hall a ha
  rw [hp] at this
  exact absurd this (by simp)

/-- With `method = 'root brentq'`, `error_method = 'covar'` and an `ul_method`
string that is neither `'covar'` nor `'conf'`, the evaluator's fit path
returns a dict that never contains the `'flux_ul'` key, so the driver's
collection predicate for that pixel is `false` (the `KeyError` case). -/
theorem collect_fails_unknown_ul (O : Oracles)
    (counts_w background_w model : List ℚ) (c_0 : ℚ) (fluxSeed : Option ℚ)
    (error_sigma : ℚ) (s : String) (ul_sigma rtol : ℚ)
    (hs1 : s ≠ "covar") (hs2 : s ≠ "conf") :
    (match ts_value_fit O counts_w background_w model c_0 fluxSeed "root brentq"
        "covar" error_sigma s ul_sigma rtol with
      | none => false
      | some r => (collectNames whichAll).all (fun name => (collectPixel r name).isSome)) =
      false := by
  rcases hfit : root_amplitude_brentq O.brentq counts_w background_w model with ⟨amp, niter⟩
  simp only [ts_value_fit, hfit, hs1, hs2, String.reduceEq, reduceIte]
  simp [collectNames, whichAll, collectPixel, List.lookup]

/-- C10.  The constructor validates `method` and `error_method` but never
`ul_method`: for every string `s` outside `{'covar', 'conf'}` construction
succeeds and stores `s` verbatim, and a subsequent `run` that requests
`'flux_ul'` reaches at least one masked pixel whose result dict has no
`'flux_ul'` field, so the driver's collection `_['flux_ul']` raises `KeyError`
(`runOk` is `false`) instead of failing fast at construction. -/
theorem C10_ul_method_not_validated (s : String) (hs1 : s ≠ "covar")
    (hs2 : s ≠ "conf") (error_sigma ul_sigma rtol : ℚ) (n_jobs : ℕ)
    (O : Oracles) (maps : InputMaps) (kernel : Image) (q : ℕ × ℕ)
    (hq : q ∈ maskedPositions maps kernel) :
    tsMapEstimatorInit "root brentq" "covar" error_sigma s ul_sigma n_jobs none rtol =
      Except.ok (paramsUl s error_sigma ul_sigma n_jobs rtol) ∧
    runOk O (paramsUl s error_sigma ul_sigma n_jobs rtol) maps kernel whichAll
      (maskedPositions maps kernel) = false := by
  constructor
  · simp [tsMapEstimatorInit, paramsUl]
  · have hpq : (fun pos =>
        match runPixel O (paramsUl s error_sigma ul_sigma n_jobs rtol) maps kernel
            whichAll pos with
        | none => false
        | some r => (collectNames whichAll).all
            (fun name => (collectPixel r name).isSome)) q = false := by
      show (match runPixel O (paramsUl s error_sigma ul_sigma n_jobs rtol) maps kernel
          whichAll q with
        | none => false
        | some r => (collectNames whichAll).all
            (fun name => (collectPixel r name).isSome)) = false
      rw [runPixel]
      simp only [paramsUl, whichAll, String.reduceEq, reduceIte, List.mem_cons,
        List.mem_singleton, or_false, false_or, or_self, Option.map_none,
        ts_value]
      exact collect_fails_unknown_ul O _ _ _ _ _ error_sigma s ul_sigma rtol hs1 hs2
    have hall : (maskedPositions maps kernel).all (fun pos =>
        match runPixel O (paramsUl s error_sigma ul_sigma n_jobs rtol) maps kernel
            whichAll pos with
        | none => false
        | some r => (collectNames whichAll).all
            (fun name => (collectPixel r name).isSome)) = false :=
      all_false_of_mem _ _ q hq hpq
    unfold runOk
    rw [hall, Bool.and_false]

/-- Witness for `C10_ul_method_not_validated`: the string `"bogus"` passes
construction, and the concrete 3×3 run requesting `'flux_ul'` fails during
collection. -/
theorem C10_ul_method_not_validated_witness :
    tsMapEstimatorInit "root brentq" "covar" 1 "bogus" 2 1 none RTOL =
      Except.ok (paramsUl "bogus" 1 2 1 RTOL) ∧
    runOk O2 (paramsUl "bogus" 1 2 1 RTOL) mapsC6 kernel3 whichAll
      (maskedPositions mapsC6 kernel3) = false :=
  C10_ul_method_not_validated "bogus" (by decide) (by decide) 1 2 RTOL 1 O2
    mapsC6 kernel3 (1, 1) (by rw [maskedPositions_mapsC6]; simp)
